import Mathlib

/-!
Shallow embedding of the towntvmax backend's subscription reconciliation core
(src/server.js): the ZenoPay webhook handler (`app.post('/api/webhooks/zenopay')`,
lines 1664-1773) and the in-memory settings cache
(`hydrateSettingsCache` / `ensureSettingsFresh` / `getSetting`, lines 845-882).

Modelling choices:
* Mongo documents become Lean structures; a collection is a `List`; `findOne`
  is `List.find?` (first match); `doc.save()` replaces the records with the
  document's identity key in the list.
* Timestamps are `Int` milliseconds since the epoch, exactly as
  `Date.getTime()`; the code's duration `durationDays * 24*60*60*1000` is
  `durationDays * 86400000` ms (= days * 86400 seconds).
* Optional string fields (`tx.name`, `tx.phoneNumber`, `tx.installationId`,
  `user.phoneNumber`) are `Option String`; JavaScript truthiness (`undefined`,
  `null` and `""` are falsy) is the `truthy` predicate.
* `getSetting('subscription_packages')` followed by `JSON.parse` is abstracted
  into a `catalog : Option (List Package)` parameter of the handler: `none`
  covers both a missing setting and a parse failure (the `catch` keeps the
  default of 30 days in both cases).
* `jwt.sign` is abstracted by `mkToken`, a concrete injective encoding of the
  payload the code signs (user id and duration); the claims never inspect it.
-/

namespace TownTvMax

/-- JavaScript truthiness of an optional string: `undefined`/`null` and the
empty string are falsy, every other string is truthy. -/
def truthy : Option String → Bool
  | none => false
  | some s => s != ""

/-- JavaScript's `String.prototype.toLowerCase()` (ASCII range), written as a
character-wise map so that concrete instances evaluate. -/
def toLowerCase (s : String) : String := ⟨s.data.map Char.toLower⟩

/-- A document of the `users` collection (the fields the reconciliation flow
reads or writes: `name`, `phoneNumber`, `installationId`, `is_premium`,
`subscriptionEndDate`).  `id` models Mongo's document identity (`user.id`). -/
structure User where
  id : Nat
  name : Option String
  phoneNumber : Option String
  installationId : Option String
  is_premium : Bool
  subscriptionEndDate : Option Int
deriving Repr, DecidableEq

/-- A document of the `transactions` collection, keyed by `orderId`. -/
structure Transaction where
  orderId : String
  name : Option String
  phoneNumber : Option String
  packageTitle : String
  installationId : Option String
  status : String
  token : Option String
deriving Repr, DecidableEq

/-- One entry of the parsed `subscription_packages` JSON: a plan name and its
validity in days (`p.name`, `p.days`).  `days = 0` models a falsy `p.days`. -/
structure Package where
  name : String
  days : Nat
deriving Repr, DecidableEq

/-- The document store visible to the webhook handler: the `users` and
`transactions` collections plus the id counter used when `User.create`
allocates a fresh document identity. -/
structure DB where
  users : List User
  transactions : List Transaction
  nextUserId : Nat
deriving Repr, DecidableEq

/-- `Transaction.findOne({ orderId: order_id })`. -/
def findTransaction (db : DB) (order_id : String) : Option Transaction :=
  db.transactions.find? (fun t => t.orderId == order_id)

/-- `tx.installationId ? await User.findOne({ installationId: tx.installationId }) : null`
— the user is resolved ONLY by the transaction's installation identifier. -/
def lookupExistingUser (db : DB) (tx : Transaction) : Option User :=
  if truthy tx.installationId then
    db.users.find? (fun u => u.installationId == tx.installationId)
  else
    none

/-- `User.findOne({ phoneNumber: ph })`. -/
def findUserByPhone (db : DB) (ph : Option String) : Option User :=
  db.users.find? (fun u => u.phoneNumber == ph)

/-- `existingUser.save()`: write the mutated document back over the stored
record with the same identity. -/
def saveUser (db : DB) (u : User) : DB :=
  { db with users := db.users.map (fun v => if v.id == u.id then u else v) }

/-- `tx.save()`: write the mutated transaction back over the stored record
with the same `orderId` (the caller-supplied unique key). -/
def saveTransaction (db : DB) (tx : Transaction) : DB :=
  { db with transactions :=
      db.transactions.map (fun t => if t.orderId == tx.orderId then tx else t) }

/-- `jwt.sign({ user: { id } }, secret, { expiresIn: durationDays d })`,
abstracted to a concrete encoding of the signed payload. -/
def mkToken (uid : Nat) (durationDays : Nat) : String :=
  toString uid ++ "." ++ toString durationDays

/-- Lines 1676-1690: resolve the validity duration.  `durationDays` starts at
30; if the packages setting is readable and parses, the entry whose `name`
matches `tx.packageTitle` case-insensitively supplies `days` when that field
is truthy; otherwise (no setting, parse failure, no match, falsy `days`) the
default of 30 stands. -/
def resolveDurationDays (catalog : Option (List Package)) (packageTitle : String) : Nat :=
  match catalog with
  | none => 30
  | some packages =>
    match packages.find? (fun p => toLowerCase p.name == toLowerCase packageTitle) with
    | some matched => if matched.days != 0 then matched.days else 30
    | none => 30

/-- Lines 1706-1733: the mutation applied to an existing user on a COMPLETED
webhook.  `baseDate` is the stored expiry when non-null and strictly in the
future, else `now`; the expiry becomes `baseDate + durationDays` days, the
premium flag is set, a truthy `tx.name` overwrites the display name, and the
phone number is adopted only when the user has none, the transaction carries
one, and no *different* user already owns it. -/
def reconciledUser (db : DB) (now : Int) (durationDays : Nat)
    (tx : Transaction) (existingUser : User) : User :=
  let baseDate : Int :=
    match existingUser.subscriptionEndDate with
    | some d => if d > now then d else now
    | none => now
  let newEndDate : Int := baseDate + (durationDays : Int) * 86400000
  let u1 := { existingUser with is_premium := true, subscriptionEndDate := some newEndDate }
  let u2 := if truthy tx.name then { u1 with name := tx.name } else u1
  let shouldUpdatePhoneNumber := !(truthy existingUser.phoneNumber) && truthy tx.phoneNumber
  let shouldUpdatePhoneNumber :=
    if shouldUpdatePhoneNumber then
      match findUserByPhone db tx.phoneNumber with
      | some phoneOwner => phoneOwner.id == existingUser.id
      | none => true
    else false
  if shouldUpdatePhoneNumber then { u2 with phoneNumber := tx.phoneNumber } else u2

/-- Lines 1741-1750: the document `User.create` inserts when no user matches
the transaction's installation identifier. -/
def createdUser (db : DB) (now : Int) (durationDays : Nat) (tx : Transaction) : User :=
  { id := db.nextUserId
    name := if truthy tx.name then tx.name else some "New User"
    phoneNumber := tx.phoneNumber
    installationId := tx.installationId
    is_premium := true
    subscriptionEndDate := some (now + (durationDays : Int) * 86400000) }

/-- The handler's observable outcome: the HTTP status it answers and the
document store it leaves behind. -/
structure WebhookResponse where
  httpStatus : Nat
  db : DB
deriving Repr, DecidableEq

/-- `app.post('/api/webhooks/zenopay')`, src/server.js lines 1664-1773.
`catalog` stands for the parsed `subscription_packages` setting and `now` for
`new Date()` at processing time.  The body { order_id, payment_status } is the
pair of string arguments. -/
def processZenopayWebhook (catalog : Option (List Package)) (now : Int)
    (db : DB) (order_id : String) (payment_status : String) : WebhookResponse :=
  match findTransaction db order_id with
  | none => ⟨200, db⟩
  | some tx =>
    if payment_status == "COMPLETED" then
      let durationDays := resolveDurationDays catalog tx.packageTitle
      match lookupExistingUser db tx with
      | some existingUser =>
        let u := reconciledUser db now durationDays tx existingUser
        let db1 := saveUser db u
        ⟨200, saveTransaction db1
          { tx with status := "COMPLETED", token := some (mkToken u.id durationDays) }⟩
      | none =>
        let newUser := createdUser db now durationDays tx
        let db1 := { db with users := db.users ++ [newUser], nextUserId := db.nextUserId + 1 }
        ⟨200, saveTransaction db1
          { tx with status := "COMPLETED", token := some (mkToken newUser.id durationDays) }⟩
    else if payment_status == "FAILED" || payment_status == "CANCELLED"
        || payment_status == "EXPIRED" then
      ⟨200, saveTransaction db { tx with status := payment_status }⟩
    else
      ⟨200, db⟩

/-- The base the extension starts from (lines 1708-1711): the stored expiry
when non-null and strictly in the future, otherwise `now`. -/
def baseExpiry (now : Int) (u : User) : Int :=
  match u.subscriptionEndDate with
  | some d => if d > now then d else now
  | none => now

/-- The code's final `shouldUpdatePhoneNumber` (lines 1723-1730): the user has
no phone number, the transaction carries one, and the first user owning that
phone number (if any) is the user being upgraded. -/
def adoptsPhone (db : DB) (tx : Transaction) (u : User) : Bool :=
  (!(truthy u.phoneNumber) && truthy tx.phoneNumber) &&
    (match findUserByPhone db tx.phoneNumber with
     | some phoneOwner => phoneOwner.id == u.id
     | none => true)

/-- At most one user owns any given (truthy) phone number. -/
def atMostOnePerPhone (users : List User) : Prop :=
  ∀ p : String, p ≠ "" → users.countP (fun v => v.phoneNumber == some p) ≤ 1

/-! ### Settings cache (src/server.js lines 845-882)

The backing `Settings` collection is a `List (String × String)` of key/value
pairs; `store = none` models an unreachable backing store (every read of it
throws).  The in-memory cache is an association list read with `List.lookup`
(`settingsCache.map`), together with `lastLoadedAt` and `ttlMs`. -/

/-- The global `settingsCache` object: the key→value map, the time of the last
full reload, and the time-to-live in milliseconds. -/
structure SettingsCache where
  map : List (String × String)
  lastLoadedAt : Int
  ttlMs : Int
deriving Repr, DecidableEq

/-- `hydrateSettingsCache()`: clear the map, repopulate it from every document
of the backing store, and stamp `lastLoadedAt` with the current time. -/
def hydrateSettingsCache (store : List (String × String)) (now : Int)
    (c : SettingsCache) : SettingsCache :=
  { c with map := store, lastLoadedAt := now }

/-- `ensureSettingsFresh()`: when the cache's age exceeds the TTL, attempt a
full reload; a reload failure (`store = none`) is caught and logged, leaving
the previous cache contents in place.  A fresh cache is returned untouched. -/
def ensureSettingsFresh (store : Option (List (String × String))) (now : Int)
    (c : SettingsCache) : SettingsCache :=
  if now - c.lastLoadedAt > c.ttlMs then
    match store with
    | some s => hydrateSettingsCache s now c
    | none => c
  else
    c

/-- `getSetting(key, fallback)`: freshen the cache if stale, answer from the
cache on a hit, otherwise read the single key through from the backing store
(caching a found value); an unreachable store on that read-through path throws
(`Except.error`), while a reload failure inside `ensureSettingsFresh` does
not.  Returns the answer together with the cache left behind. -/
def getSetting (store : Option (List (String × String))) (now : Int)
    (c : SettingsCache) (key : String) (fallback : Option String) :
    Except Unit (Option String × SettingsCache) :=
  let c1 := ensureSettingsFresh store now c
  match c1.map.lookup key with
  | some v => .ok (some v, c1)
  | none =>
    match store with
    | some s =>
      match s.lookup key with
      | some v => .ok (some v, { c1 with map := (key, v) :: c1.map })
      | none => .ok (fallback, c1)
    | none => .error ()

/-! ### Helper lemmas -/

theorem lookupExistingUser_mem {db : DB} {tx : Transaction} {u : User}
    (hu : lookupExistingUser db tx = some u) : u ∈ db.users := by
  unfold lookupExistingUser at hu
  split at hu
  · exact List.mem_of_find?_eq_some hu
  · exact absurd hu (by simp)

theorem reconciledUser_eq (db : DB) (now : Int) (durationDays : Nat)
    (tx : Transaction) (u : User) :
    reconciledUser db now durationDays tx u =
      { id := u.id
        name := if truthy tx.name then tx.name else u.name
        phoneNumber := if adoptsPhone db tx u then tx.phoneNumber else u.phoneNumber
        installationId := u.installationId
        is_premium := true
        subscriptionEndDate :=
          some (baseExpiry now u + (durationDays : Int) * 86400000) } := by
  unfold reconciledUser adoptsPhone baseExpiry
  cases h1 : truthy tx.name <;>
    cases h2 : !(truthy u.phoneNumber) && truthy tx.phoneNumber <;>
      cases h3 : findUserByPhone db tx.phoneNumber <;>
        simp [h1, h2, h3] <;> split <;> rfl

theorem processZenopayWebhook_completed_existing
    (catalog : Option (List Package)) (now : Int) (db : DB) (order_id : String)
    (tx : Transaction) (u : User)
    (htx : findTransaction db order_id = some tx)
    (hu : lookupExistingUser db tx = some u) :
    processZenopayWebhook catalog now db order_id "COMPLETED" =
      ⟨200, saveTransaction
        (saveUser db (reconciledUser db now (resolveDurationDays catalog tx.packageTitle) tx u))
        { tx with status := "COMPLETED",
                  token := some (mkToken
                    (reconciledUser db now (resolveDurationDays catalog tx.packageTitle) tx u).id
                    (resolveDurationDays catalog tx.packageTitle)) }⟩ := by
  simp [processZenopayWebhook, htx, hu]

theorem processZenopayWebhook_completed_fresh
    (catalog : Option (List Package)) (now : Int) (db : DB) (order_id : String)
    (tx : Transaction)
    (htx : findTransaction db order_id = some tx)
    (hno : lookupExistingUser db tx = none) :
    processZenopayWebhook catalog now db order_id "COMPLETED" =
      ⟨200, saveTransaction
        { db with
            users := db.users ++ [createdUser db now (resolveDurationDays catalog tx.packageTitle) tx]
            nextUserId := db.nextUserId + 1 }
        { tx with status := "COMPLETED",
                  token := some (mkToken db.nextUserId
                    (resolveDurationDays catalog tx.packageTitle)) }⟩ := by
  simp [processZenopayWebhook, htx, hno, createdUser]

theorem saveTransaction_users (db : DB) (tx : Transaction) :
    (saveTransaction db tx).users = db.users := rfl

theorem saveUser_users (db : DB) (u : User) :
    (saveUser db u).users = db.users.map (fun v => if v.id == u.id then u else v) := rfl

theorem baseExpiry_eq_max (now : Int) (u : User) :
    baseExpiry now u = max now (u.subscriptionEndDate.getD now) := by
  unfold baseExpiry
  cases h : u.subscriptionEndDate with
  | none => simp
  | some d => simp [max_def]; omega

theorem users_replace_decomp (db : DB) (u u1 : User)
    (hmem : u ∈ db.users) (hnodup : (db.users.map User.id).Nodup) :
    ∃ l1 l2, db.users = l1 ++ u :: l2 ∧
      db.users.map (fun v => if v.id == u.id then u1 else v) = l1 ++ u1 :: l2 ∧
      (∀ v ∈ l1, v.id ≠ u.id) ∧ (∀ v ∈ l2, v.id ≠ u.id) := by
  obtain ⟨l1, l2, hsplit⟩ := List.append_of_mem hmem
  have hnd : (l1.map User.id ++ User.id u :: l2.map User.id).Nodup := by
    simpa [hsplit] using hnodup
  have h1 : ∀ v ∈ l1, v.id ≠ u.id := by
    intro v hv heq
    exact (List.nodup_append.mp hnd).2.2 (List.mem_map_of_mem _ hv) (by simp [heq])
  have h2 : ∀ v ∈ l2, v.id ≠ u.id := by
    intro v hv heq
    exact (List.nodup_cons.mp (List.nodup_append.mp hnd).2.1).1
      (by rw [← heq]; exact List.mem_map_of_mem _ hv)
  refine ⟨l1, l2, hsplit, ?_, h1, h2⟩
  have e1 : l1.map (fun v => if v.id == u.id then u1 else v) = l1 := by
    conv_rhs => rw [← List.map_id l1]
    exact List.map_congr_left (fun v hv => by simp [h1 v hv])
  have e2 : l2.map (fun v => if v.id == u.id then u1 else v) = l2 := by
    conv_rhs => rw [← List.map_id l2]
    exact List.map_congr_left (fun v hv => by simp [h2 v hv])
  rw [hsplit, List.map_append, List.map_cons, e1, e2]
  simp

theorem adoptsPhone_eq_of_nodup (db : DB) (tx : Transaction) (u : User)
    (hmem : u ∈ db.users) (hnodup : (db.users.map User.id).Nodup) :
    adoptsPhone db tx u =
      ((!(truthy u.phoneNumber) && truthy tx.phoneNumber)
        && (findUserByPhone db tx.phoneNumber).isNone) := by
  unfold adoptsPhone
  cases h2 : (!(truthy u.phoneNumber) && truthy tx.phoneNumber)
  · simp
  · simp only [Bool.true_and]
    cases h3 : findUserByPhone db tx.phoneNumber with
    | none => simp
    | some owner =>
      simp only [Option.isNone_some, Bool.and_false]
      rw [beq_eq_false_iff_ne]
      intro heq
      have h4 : db.users.find? (fun w => w.phoneNumber == tx.phoneNumber) = some owner := h3
      have hosame : owner = u :=
        List.inj_on_of_nodup_map hnodup (List.mem_of_find?_eq_some h4) hmem heq
      have hown_ph := List.find?_some h4
      simp only [beq_iff_eq] at hown_ph
      obtain ⟨hnotu, htx⟩ := Bool.and_eq_true_iff.mp h2
      rw [hosame] at hown_ph
      rw [hown_ph] at hnotu
      simp [htx] at hnotu

theorem users_after_completed_existing
    (catalog : Option (List Package)) (now : Int) (db : DB) (order_id : String)
    (tx : Transaction) (u : User)
    (htx : findTransaction db order_id = some tx)
    (hu : lookupExistingUser db tx = some u) :
    (processZenopayWebhook catalog now db order_id "COMPLETED").db.users
      = db.users.map (fun v =>
          if v.id == u.id
          then reconciledUser db now (resolveDurationDays catalog tx.packageTitle) tx u
          else v) := by
  rw [processZenopayWebhook_completed_existing catalog now db order_id tx u htx hu]
  show (saveTransaction _ _).users = _
  rw [saveTransaction_users, saveUser_users]
  congr 1
  funext v
  simp [reconciledUser_eq]

/-! ### Claim theorems -/

/-- C3: a webhook whose order identifier matches no Transaction in the ledger
creates no User, mutates no User or Transaction (the whole store is returned
unchanged), and still answers HTTP 200 to the gateway — for any reported
payment status. -/
theorem C3_unknown_order_is_accepted_noop
    (catalog : Option (List Package)) (now : Int) (db : DB)
    (order_id payment_status : String)
    (htx : findTransaction db order_id = none) :
    processZenopayWebhook catalog now db order_id payment_status = ⟨200, db⟩ := by
  simp [processZenopayWebhook, htx]

/-- Witness for C3 at a concrete store holding one unrelated transaction. -/
theorem C3_unknown_order_is_accepted_noop_witness :
    findTransaction ⟨[], [⟨"ord-1", none, none, "Wiki 1", none, "PENDING", none⟩], 0⟩
        "ord-2" = none ∧
    processZenopayWebhook none 0
        ⟨[], [⟨"ord-1", none, none, "Wiki 1", none, "PENDING", none⟩], 0⟩
        "ord-2" "COMPLETED"
      = ⟨200, ⟨[], [⟨"ord-1", none, none, "Wiki 1", none, "PENDING", none⟩], 0⟩⟩ :=
  ⟨by decide,
   C3_unknown_order_is_accepted_noop none 0
     ⟨[], [⟨"ord-1", none, none, "Wiki 1", none, "PENDING", none⟩], 0⟩
     "ord-2" "COMPLETED" (by decide)⟩

/-- C5: a webhook reporting FAILED, CANCELLED or EXPIRED for a known order
records exactly that status on the Transaction and performs no User mutation:
the users collection and the id counter are untouched, and only transactions
carrying that order identifier change, each to the looked-up record with the
reported status. -/
theorem C5_failed_statuses_touch_only_the_transaction
    (catalog : Option (List Package)) (now : Int) (db : DB)
    (order_id payment_status : String) (tx : Transaction)
    (htx : findTransaction db order_id = some tx)
    (hps : payment_status = "FAILED" ∨ payment_status = "CANCELLED"
            ∨ payment_status = "EXPIRED") :
    processZenopayWebhook catalog now db order_id payment_status =
      ⟨200, { db with transactions :=
          db.transactions.map (fun t =>
            if t.orderId == tx.orderId
            then { tx with status := payment_status } else t) }⟩ := by
  rcases hps with h | h | h <;> subst h <;>
    simp [processZenopayWebhook, htx, saveTransaction]

/-- Witness for C5: a CANCELLED webhook for a PENDING transaction. -/
theorem C5_failed_statuses_touch_only_the_transaction_witness :
    findTransaction ⟨[⟨1, none, none, none, false, none⟩],
        [⟨"ord-1", none, none, "Wiki 1", some "inst-1", "PENDING", none⟩], 2⟩
        "ord-1"
      = some ⟨"ord-1", none, none, "Wiki 1", some "inst-1", "PENDING", none⟩ ∧
    processZenopayWebhook none 0
        ⟨[⟨1, none, none, none, false, none⟩],
         [⟨"ord-1", none, none, "Wiki 1", some "inst-1", "PENDING", none⟩], 2⟩
        "ord-1" "CANCELLED"
      = ⟨200, ⟨[⟨1, none, none, none, false, none⟩],
          [⟨"ord-1", none, none, "Wiki 1", some "inst-1", "CANCELLED", none⟩], 2⟩⟩ := by
  refine ⟨by decide, ?_⟩
  have h := C5_failed_statuses_touch_only_the_transaction none 0
    ⟨[⟨1, none, none, none, false, none⟩],
     [⟨"ord-1", none, none, "Wiki 1", some "inst-1", "PENDING", none⟩], 2⟩
    "ord-1" "CANCELLED"
    ⟨"ord-1", none, none, "Wiki 1", some "inst-1", "PENDING", none⟩
    (by decide) (Or.inr (Or.inl rfl))
  rw [h]
  decide

/-- C10: a webhook for a known order whose reported status is outside the
recognized set {COMPLETED, FAILED, CANCELLED, EXPIRED} — e.g. "PENDING" or an
arbitrary string — leaves the whole store (every Transaction and every User)
unchanged and still answers HTTP 200. -/
theorem C10_unrecognized_status_is_accepted_noop
    (catalog : Option (List Package)) (now : Int) (db : DB)
    (order_id payment_status : String) (tx : Transaction)
    (htx : findTransaction db order_id = some tx)
    (h1 : payment_status ≠ "COMPLETED") (h2 : payment_status ≠ "FAILED")
    (h3 : payment_status ≠ "CANCELLED") (h4 : payment_status ≠ "EXPIRED") :
    processZenopayWebhook catalog now db order_id payment_status = ⟨200, db⟩ := by
  simp [processZenopayWebhook, htx, h1, h2, h3, h4]

/-- Witness for C10: a "PENDING" webhook for a known order changes nothing. -/
theorem C10_unrecognized_status_is_accepted_noop_witness :
    findTransaction ⟨[⟨1, none, none, some "inst-1", false, none⟩],
        [⟨"ord-1", none, none, "Wiki 1", some "inst-1", "PENDING", none⟩], 2⟩
        "ord-1"
      = some ⟨"ord-1", none, none, "Wiki 1", some "inst-1", "PENDING", none⟩ ∧
    processZenopayWebhook none 0
        ⟨[⟨1, none, none, some "inst-1", false, none⟩],
         [⟨"ord-1", none, none, "Wiki 1", some "inst-1", "PENDING", none⟩], 2⟩
        "ord-1" "PENDING"
      = ⟨200, ⟨[⟨1, none, none, some "inst-1", false, none⟩],
          [⟨"ord-1", none, none, "Wiki 1", some "inst-1", "PENDING", none⟩], 2⟩⟩ :=
  ⟨by decide,
   C10_unrecognized_status_is_accepted_noop none 0
     ⟨[⟨1, none, none, some "inst-1", false, none⟩],
      [⟨"ord-1", none, none, "Wiki 1", some "inst-1", "PENDING", none⟩], 2⟩
     "ord-1" "PENDING"
     ⟨"ord-1", none, none, "Wiki 1", some "inst-1", "PENDING", none⟩
     (by decide) (by decide) (by decide) (by decide) (by decide)⟩

/-- C2: for a PENDING Transaction whose installation identifier resolves to an
existing User, a COMPLETED webhook replaces that user's record (and only
records with its id) with one whose expiry is
`max(now, old expiry) + durationDays` days (in ms: `days * 86400000`,
i.e. `days * 86400` seconds) and whose premium flag is set; an absent old
expiry extends from `now`. -/
theorem C2_completed_webhook_extends_expiry_and_sets_premium
    (catalog : Option (List Package)) (now : Int) (db : DB)
    (order_id : String) (tx : Transaction) (u : User)
    (htx : findTransaction db order_id = some tx)
    (_hpending : tx.status = "PENDING")
    (hu : lookupExistingUser db tx = some u) :
    ∃ u1,
      (processZenopayWebhook catalog now db order_id "COMPLETED").db.users
        = db.users.map (fun v => if v.id == u.id then u1 else v) ∧
      u1.id = u.id ∧
      u1.is_premium = true ∧
      u1.subscriptionEndDate =
        some (max now (u.subscriptionEndDate.getD now)
          + (resolveDurationDays catalog tx.packageTitle : Int) * 86400000) := by
  refine ⟨reconciledUser db now (resolveDurationDays catalog tx.packageTitle) tx u,
    users_after_completed_existing catalog now db order_id tx u htx hu, ?_, ?_, ?_⟩
  · rw [reconciledUser_eq]
  · rw [reconciledUser_eq]
  · rw [reconciledUser_eq, baseExpiry_eq_max]

/-- Witness for C2: user with future expiry 10 days from the epoch, 7-day
package, now = 0; the expiry becomes 17 days. -/
theorem C2_completed_webhook_extends_expiry_and_sets_premium_witness :
    ∃ u1,
      (processZenopayWebhook (some [⟨"Wiki 1", 7⟩]) 0
          ⟨[⟨1, some "Alice", none, some "inst-1", false, some 864000000⟩],
           [⟨"ord-1", some "Bob", none, "wiki 1", some "inst-1", "PENDING", none⟩], 2⟩
          "ord-1" "COMPLETED").db.users
        = List.map (fun v => if v.id == 1 then u1 else v)
            [⟨1, some "Alice", none, some "inst-1", false, some 864000000⟩] ∧
      u1.id = 1 ∧
      u1.is_premium = true ∧
      u1.subscriptionEndDate = some (max 0 ((some 864000000 : Option Int).getD 0)
        + (resolveDurationDays (some [⟨"Wiki 1", 7⟩]) "wiki 1" : Int) * 86400000) :=
  C2_completed_webhook_extends_expiry_and_sets_premium
    (some [⟨"Wiki 1", 7⟩]) 0
    ⟨[⟨1, some "Alice", none, some "inst-1", false, some 864000000⟩],
     [⟨"ord-1", some "Bob", none, "wiki 1", some "inst-1", "PENDING", none⟩], 2⟩
    "ord-1"
    ⟨"ord-1", some "Bob", none, "wiki 1", some "inst-1", "PENDING", none⟩
    ⟨1, some "Alice", none, some "inst-1", false, some 864000000⟩
    (by decide) (by decide) (by decide)

/-- C9 (implicit): when reconciling a COMPLETED webhook onto an existing User,
a truthy (non-empty) payer name on the Transaction also overwrites the User's
display name — a mutation beyond the expiry, premium and phone changes. -/
theorem C9_payer_name_overwrites_display_name
    (catalog : Option (List Package)) (now : Int) (db : DB)
    (order_id : String) (tx : Transaction) (u : User)
    (htx : findTransaction db order_id = some tx)
    (hu : lookupExistingUser db tx = some u)
    (hname : truthy tx.name = true) :
    ∃ u1,
      (processZenopayWebhook catalog now db order_id "COMPLETED").db.users
        = db.users.map (fun v => if v.id == u.id then u1 else v) ∧
      u1.id = u.id ∧
      u1.name = tx.name := by
  refine ⟨reconciledUser db now (resolveDurationDays catalog tx.packageTitle) tx u,
    users_after_completed_existing catalog now db order_id tx u htx hu, ?_, ?_⟩
  · rw [reconciledUser_eq]
  · rw [reconciledUser_eq]
    simp [hname]

/-- Witness for C9: the payer name "Bob" replaces the stored name "Alice". -/
theorem C9_payer_name_overwrites_display_name_witness :
    ∃ u1,
      (processZenopayWebhook none 0
          ⟨[⟨1, some "Alice", none, some "inst-1", false, none⟩],
           [⟨"ord-1", some "Bob", none, "Wiki 1", some "inst-1", "PENDING", none⟩], 2⟩
          "ord-1" "COMPLETED").db.users
        = List.map (fun v => if v.id == 1 then u1 else v)
            [⟨1, some "Alice", none, some "inst-1", false, none⟩] ∧
      u1.id = 1 ∧
      u1.name = some "Bob" :=
  C9_payer_name_overwrites_display_name none 0
    ⟨[⟨1, some "Alice", none, some "inst-1", false, none⟩],
     [⟨"ord-1", some "Bob", none, "Wiki 1", some "inst-1", "PENDING", none⟩], 2⟩
    "ord-1"
    ⟨"ord-1", some "Bob", none, "Wiki 1", some "inst-1", "PENDING", none⟩
    ⟨1, some "Alice", none, some "inst-1", false, none⟩
    (by decide) (by decide) (by decide)

/-- C7: when the Transaction's installation identifier resolves to no existing
User, a COMPLETED webhook creates exactly one new User carrying the
transaction's installation identifier, (truthy) payer name and phone number,
with expiry `now + duration` and premium set, and marks the transaction
COMPLETED with its token.  The hypotheses constrain only the
installation-identifier lookup — other users may share the transaction's phone
number — exhibiting that resolution never falls back to phone or device. -/
theorem C7_new_user_created_strictly_by_installation_id
    (catalog : Option (List Package)) (now : Int) (db : DB)
    (order_id : String) (tx : Transaction)
    (htx : findTransaction db order_id = some tx)
    (hno : lookupExistingUser db tx = none)
    (hname : truthy tx.name = true) :
    processZenopayWebhook catalog now db order_id "COMPLETED" =
      ⟨200,
       ⟨db.users ++ [⟨db.nextUserId, tx.name, tx.phoneNumber, tx.installationId, true,
          some (now + (resolveDurationDays catalog tx.packageTitle : Int) * 86400000)⟩],
        db.transactions.map (fun t =>
          if t.orderId == tx.orderId
          then ⟨tx.orderId, tx.name, tx.phoneNumber, tx.packageTitle, tx.installationId,
                "COMPLETED", some (mkToken db.nextUserId
                  (resolveDurationDays catalog tx.packageTitle))⟩
          else t),
        db.nextUserId + 1⟩⟩ := by
  rw [processZenopayWebhook_completed_fresh catalog now db order_id tx htx hno]
  simp [saveTransaction, createdUser, hname]

/-- Witness for C7: the store holds a user owning the transaction's phone
number but a different installation identifier; a fresh user is created
anyway. -/
theorem C7_new_user_created_strictly_by_installation_id_witness :
    processZenopayWebhook none 0
        ⟨[⟨1, some "Eve", some "0712", some "other-inst", false, none⟩],
         [⟨"ord-1", some "Bob", some "0712", "Wiki 1", some "inst-1", "PENDING", none⟩], 2⟩
        "ord-1" "COMPLETED"
      = ⟨200,
         ⟨[⟨1, some "Eve", some "0712", some "other-inst", false, none⟩]
            ++ [⟨2, some "Bob", some "0712", some "inst-1", true,
                 some (0 + (resolveDurationDays none "Wiki 1" : Int) * 86400000)⟩],
          List.map (fun t =>
            if t.orderId == "ord-1"
            then { orderId := "ord-1", name := some "Bob", phoneNumber := some "0712",
                   packageTitle := "Wiki 1", installationId := some "inst-1",
                   status := "COMPLETED",
                   token := some (mkToken 2 (resolveDurationDays none "Wiki 1")) }
            else t)
            [⟨"ord-1", some "Bob", some "0712", "Wiki 1", some "inst-1", "PENDING", none⟩],
          3⟩⟩ :=
  C7_new_user_created_strictly_by_installation_id none 0
    ⟨[⟨1, some "Eve", some "0712", some "other-inst", false, none⟩],
     [⟨"ord-1", some "Bob", some "0712", "Wiki 1", some "inst-1", "PENDING", none⟩], 2⟩
    "ord-1"
    ⟨"ord-1", some "Bob", some "0712", "Wiki 1", some "inst-1", "PENDING", none⟩
    (by decide) (by decide) (by decide)

/-- C6: the validity duration is resolved by matching the transaction's
package name case-insensitively against the catalog (the resolution cannot
distinguish titles with the same lower-casing, and a matched entry with truthy
`days` supplies the duration); an unreadable catalog or an unmatched name
yields the 30-day default rather than a failure, and in that case an existing
user with no prior expiry ends up with expiry `now + 30 days`. -/
theorem C6_duration_resolution_case_insensitive_with_30_day_default
    (catalog : Option (List Package)) (pkgs : List Package) (matched : Package)
    (title : String) (now : Int) (db : DB) (order_id : String)
    (tx : Transaction) (u : User) :
    (∀ t1 t2 : String, toLowerCase t1 = toLowerCase t2 →
      resolveDurationDays catalog t1 = resolveDurationDays catalog t2) ∧
    (pkgs.find? (fun p => toLowerCase p.name == toLowerCase title) = some matched →
      matched.days ≠ 0 → resolveDurationDays (some pkgs) title = matched.days) ∧
    resolveDurationDays none title = 30 ∧
    (pkgs.find? (fun p => toLowerCase p.name == toLowerCase title) = none →
      resolveDurationDays (some pkgs) title = 30) ∧
    (findTransaction db order_id = some tx →
     resolveDurationDays catalog tx.packageTitle = 30 →
     lookupExistingUser db tx = some u →
     u.subscriptionEndDate = none →
     ∃ u1,
       (processZenopayWebhook catalog now db order_id "COMPLETED").db.users
         = db.users.map (fun v => if v.id == u.id then u1 else v) ∧
       u1.subscriptionEndDate = some (now + 30 * 86400000)) := by
  refine ⟨?_, ?_, rfl, ?_, ?_⟩
  · intro t1 t2 ht
    cases catalog with
    | none => rfl
    | some packages => simp [resolveDurationDays, ht]
  · intro hf hd
    simp [resolveDurationDays, hf, hd]
  · intro hf
    simp [resolveDurationDays, hf]
  · intro htx h30 hu hexp
    refine ⟨reconciledUser db now (resolveDurationDays catalog tx.packageTitle) tx u,
      users_after_completed_existing catalog now db order_id tx u htx hu, ?_⟩
    rw [reconciledUser_eq, h30]
    simp [baseExpiry, hexp]

/-- Witness for C6: catalog entry "WIKI 1" of 7 days matches title "wiki 1";
an unmatched title and an unreadable catalog give 30 days; a user with no
expiry paying for an unknown package ends at 30 days from the epoch. -/
theorem C6_duration_resolution_case_insensitive_with_30_day_default_witness :
    resolveDurationDays (some [⟨"WIKI 1", 7⟩]) "WIKI 1"
      = resolveDurationDays (some [⟨"WIKI 1", 7⟩]) "wiki 1" ∧
    resolveDurationDays (some [⟨"WIKI 1", 7⟩]) "wiki 1" = 7 ∧
    resolveDurationDays none "wiki 1" = 30 ∧
    resolveDurationDays (some [⟨"WIKI 1", 7⟩]) "unknown" = 30 ∧
    ∃ u1,
      (processZenopayWebhook (some [⟨"WIKI 1", 7⟩]) 0
          ⟨[⟨1, none, none, some "inst-1", false, none⟩],
           [⟨"ord-1", none, none, "unknown", some "inst-1", "PENDING", none⟩], 2⟩
          "ord-1" "COMPLETED").db.users
        = List.map (fun v => if v.id == 1 then u1 else v)
            [⟨1, none, none, some "inst-1", false, none⟩] ∧
      u1.subscriptionEndDate = some (0 + 30 * 86400000) := by
  have h1 := C6_duration_resolution_case_insensitive_with_30_day_default
    (some [⟨"WIKI 1", 7⟩]) [⟨"WIKI 1", 7⟩] ⟨"WIKI 1", 7⟩ "wiki 1" 0
    ⟨[⟨1, none, none, some "inst-1", false, none⟩],
     [⟨"ord-1", none, none, "unknown", some "inst-1", "PENDING", none⟩], 2⟩
    "ord-1"
    ⟨"ord-1", none, none, "unknown", some "inst-1", "PENDING", none⟩
    ⟨1, none, none, some "inst-1", false, none⟩
  have h2 := C6_duration_resolution_case_insensitive_with_30_day_default
    (some [⟨"WIKI 1", 7⟩]) [⟨"WIKI 1", 7⟩] ⟨"WIKI 1", 7⟩ "unknown" 0
    ⟨[⟨1, none, none, some "inst-1", false, none⟩],
     [⟨"ord-1", none, none, "unknown", some "inst-1", "PENDING", none⟩], 2⟩
    "ord-1"
    ⟨"ord-1", none, none, "unknown", some "inst-1", "PENDING", none⟩
    ⟨1, none, none, some "inst-1", false, none⟩
  refine ⟨h1.1 "WIKI 1" "wiki 1" (by decide), h1.2.1 (by decide) (by decide),
    h1.2.2.1, h2.2.2.2.1 (by decide),
    h2.2.2.2.2 (by decide) (by decide) (by decide) rfl⟩

/-- C1 (code bug): the handler never consults the transaction's stored status,
so a second COMPLETED delivery for an already-COMPLETED order re-applies the
grant.  Concretely: order "ord-1" is already COMPLETED and its user (found by
installation identifier "inst-1") is premium with expiry 1000000 ms; a further
COMPLETED webhook at now = 0 extends the expiry again by the 30-day default to
2593000000 ms instead of being an idempotent no-op. -/
theorem C1_second_completed_webhook_reapplies_grant :
    (⟨"ord-1", some "Alice", some "0712", "Wiki 1", some "inst-1", "COMPLETED",
        some "1.30"⟩ : Transaction).status = "COMPLETED" ∧
    processZenopayWebhook none 0
        ⟨[⟨1, some "Alice", some "0712", some "inst-1", true, some 1000000⟩],
         [⟨"ord-1", some "Alice", some "0712", "Wiki 1", some "inst-1", "COMPLETED",
           some "1.30"⟩], 2⟩
        "ord-1" "COMPLETED"
      = ⟨200,
         ⟨[⟨1, some "Alice", some "0712", some "inst-1", true, some 2593000000⟩],
          [⟨"ord-1", some "Alice", some "0712", "Wiki 1", some "inst-1", "COMPLETED",
            some "1.30"⟩], 2⟩⟩ :=
  ⟨rfl, by decide⟩

/-- C4: during reconciliation of an existing User (distinct user ids assumed,
as Mongo document ids are unique), the transaction's phone number is adopted
onto the user exactly when the user has no phone number, the transaction
carries one, and no user at all already owns it (under distinct ids, a
different owner is the only possible owner); every other user's record — in
particular a different owner of that phone number — survives unchanged, the
webhook still answers 200 rather than failing, and the at-most-one-user-per-
phone-number invariant is preserved. -/
theorem C4_phone_adoption_never_steals_a_number
    (catalog : Option (List Package)) (now : Int) (db : DB)
    (order_id : String) (tx : Transaction) (u : User)
    (htx : findTransaction db order_id = some tx)
    (hu : lookupExistingUser db tx = some u)
    (hnodup : (db.users.map User.id).Nodup) :
    (processZenopayWebhook catalog now db order_id "COMPLETED").httpStatus = 200 ∧
    (∀ v ∈ db.users, v.id ≠ u.id →
      v ∈ (processZenopayWebhook catalog now db order_id "COMPLETED").db.users) ∧
    (∃ u1,
      (processZenopayWebhook catalog now db order_id "COMPLETED").db.users
        = db.users.map (fun v => if v.id == u.id then u1 else v) ∧
      u1.id = u.id ∧
      u1.phoneNumber =
        (if (!(truthy u.phoneNumber) && truthy tx.phoneNumber)
            && (findUserByPhone db tx.phoneNumber).isNone
         then tx.phoneNumber else u.phoneNumber)) ∧
    (atMostOnePerPhone db.users →
      atMostOnePerPhone (processZenopayWebhook catalog now db order_id "COMPLETED").db.users) := by
  have hmem : u ∈ db.users := lookupExistingUser_mem hu
  have husers := users_after_completed_existing catalog now db order_id tx u htx hu
  have hid : (reconciledUser db now (resolveDurationDays catalog tx.packageTitle) tx u).id
      = u.id := by
    rw [reconciledUser_eq]
  have hphone : (reconciledUser db now (resolveDurationDays catalog tx.packageTitle) tx u).phoneNumber
      = (if (!(truthy u.phoneNumber) && truthy tx.phoneNumber)
            && (findUserByPhone db tx.phoneNumber).isNone
         then tx.phoneNumber else u.phoneNumber) := by
    rw [reconciledUser_eq]
    show (if adoptsPhone db tx u then tx.phoneNumber else u.phoneNumber) = _
    rw [adoptsPhone_eq_of_nodup db tx u hmem hnodup]
  refine ⟨?_, ?_, ⟨_, husers, hid, hphone⟩, ?_⟩
  · rw [processZenopayWebhook_completed_existing catalog now db order_id tx u htx hu]
  · intro v hv hvne
    rw [husers]
    exact List.mem_map.mpr ⟨v, hv, by simp [hvne]⟩
  · intro hinv p hp
    have hdb := hinv p hp
    obtain ⟨l1, l2, hsplit, hmap, hl1ne, hl2ne⟩ :=
      users_replace_decomp db u
        (reconciledUser db now (resolveDurationDays catalog tx.packageTitle) tx u) hmem hnodup
    rw [husers, hmap, List.countP_append, List.countP_cons]
    rw [hsplit, List.countP_append, List.countP_cons] at hdb
    by_cases hcond : ((!(truthy u.phoneNumber) && truthy tx.phoneNumber)
        && (findUserByPhone db tx.phoneNumber).isNone) = true
    · obtain ⟨hand, hnone⟩ := Bool.and_eq_true_iff.mp hcond
      have hnone2 : db.users.find? (fun w => w.phoneNumber == tx.phoneNumber) = none :=
        Option.isNone_iff_eq_none.mp hnone
      have hnoown : ∀ w ∈ db.users, ¬((w.phoneNumber == tx.phoneNumber) = true) := by
        intro w hw
        simpa using List.find?_eq_none.mp hnone2 w hw
      have hphone1 : (reconciledUser db now (resolveDurationDays catalog tx.packageTitle) tx u).phoneNumber
          = tx.phoneNumber := by
        rw [hphone, if_pos hcond]
      by_cases hpe : tx.phoneNumber = some p
      · have hl1 : l1.countP (fun v => v.phoneNumber == some p) = 0 := by
          rw [List.countP_eq_zero]
          intro w hw
          have hmem1 : w ∈ db.users := by
            rw [hsplit]; exact List.mem_append_of_mem_left _ hw
          simpa [hpe] using hnoown w hmem1
        have hl2 : l2.countP (fun v => v.phoneNumber == some p) = 0 := by
          rw [List.countP_eq_zero]
          intro w hw
          have hmem2 : w ∈ db.users := by
            rw [hsplit]
            exact List.mem_append_of_mem_right _ (List.mem_cons_of_mem _ hw)
          simpa [hpe] using hnoown w hmem2
        rw [hl1, hl2]
        split <;> omega
      · have hne : ((reconciledUser db now (resolveDurationDays catalog tx.packageTitle) tx u).phoneNumber
            == some p) = false := by
          rw [hphone1]
          exact beq_eq_false_iff_ne.mpr hpe
        simp only [hne, Bool.false_eq_true, if_false]
        split at hdb <;> omega
    · have hphone1 : (reconciledUser db now (resolveDurationDays catalog tx.packageTitle) tx u).phoneNumber
          = u.phoneNumber := by
        rw [hphone, if_neg hcond]
      simp only [hphone1]
      exact hdb

/-- Witness for C4: user 1 (no phone) upgrades while user 5 already owns the
transaction's phone number "0712"; the adoption condition is false, user 5
survives, the webhook answers 200, and phone uniqueness is preserved. -/
theorem C4_phone_adoption_never_steals_a_number_witness :
    (processZenopayWebhook none 0
        ⟨[⟨1, some "Alice", none, some "inst-1", false, none⟩,
          ⟨5, some "Eve", some "0712", some "eve-inst", false, none⟩],
         [⟨"ord-1", some "Bob", some "0712", "Wiki 1", some "inst-1", "PENDING", none⟩],
         9⟩ "ord-1" "COMPLETED").httpStatus = 200 ∧
    (∀ v ∈ ([⟨1, some "Alice", none, some "inst-1", false, none⟩,
             ⟨5, some "Eve", some "0712", some "eve-inst", false, none⟩] : List User),
      v.id ≠ 1 →
      v ∈ (processZenopayWebhook none 0
        ⟨[⟨1, some "Alice", none, some "inst-1", false, none⟩,
          ⟨5, some "Eve", some "0712", some "eve-inst", false, none⟩],
         [⟨"ord-1", some "Bob", some "0712", "Wiki 1", some "inst-1", "PENDING", none⟩],
         9⟩ "ord-1" "COMPLETED").db.users) ∧
    (∃ u1,
      (processZenopayWebhook none 0
        ⟨[⟨1, some "Alice", none, some "inst-1", false, none⟩,
          ⟨5, some "Eve", some "0712", some "eve-inst", false, none⟩],
         [⟨"ord-1", some "Bob", some "0712", "Wiki 1", some "inst-1", "PENDING", none⟩],
         9⟩ "ord-1" "COMPLETED").db.users
        = List.map (fun v => if v.id == 1 then u1 else v)
            [⟨1, some "Alice", none, some "inst-1", false, none⟩,
             ⟨5, some "Eve", some "0712", some "eve-inst", false, none⟩] ∧
      u1.id = 1 ∧
      u1.phoneNumber =
        (if (!(truthy (none : Option String)) && truthy (some "0712"))
            && (findUserByPhone
              ⟨[⟨1, some "Alice", none, some "inst-1", false, none⟩,
                ⟨5, some "Eve", some "0712", some "eve-inst", false, none⟩],
               [⟨"ord-1", some "Bob", some "0712", "Wiki 1", some "inst-1", "PENDING", none⟩],
               9⟩ (some "0712")).isNone
         then some "0712" else none)) ∧
    (atMostOnePerPhone
        [⟨1, some "Alice", none, some "inst-1", false, none⟩,
         ⟨5, some "Eve", some "0712", some "eve-inst", false, none⟩] →
      atMostOnePerPhone (processZenopayWebhook none 0
        ⟨[⟨1, some "Alice", none, some "inst-1", false, none⟩,
          ⟨5, some "Eve", some "0712", some "eve-inst", false, none⟩],
         [⟨"ord-1", some "Bob", some "0712", "Wiki 1", some "inst-1", "PENDING", none⟩],
         9⟩ "ord-1" "COMPLETED").db.users) :=
  C4_phone_adoption_never_steals_a_number none 0
    ⟨[⟨1, some "Alice", none, some "inst-1", false, none⟩,
      ⟨5, some "Eve", some "0712", some "eve-inst", false, none⟩],
     [⟨"ord-1", some "Bob", some "0712", "Wiki 1", some "inst-1", "PENDING", none⟩],
     9⟩ "ord-1"
    ⟨"ord-1", some "Bob", some "0712", "Wiki 1", some "inst-1", "PENDING", none⟩
    ⟨1, some "Alice", none, some "inst-1", false, none⟩
    (by decide) (by decide) (by decide)

/-- C8: a settings read answers from the cache when the cache's age is within
the TTL (the cache object is returned untouched — no reload); when the age
exceeds the TTL the entire cache is reloaded from the backing store before
answering, so a key present in the store is answered from the freshly reloaded
map; and a reload failure is swallowed (`ensureSettingsFresh` returns the
cache unchanged) with the previously cached stale value still served. -/
theorem C8_settings_cache_ttl_reload_and_stale_serving
    (store : List (String × String)) (now : Int) (c : SettingsCache)
    (key : String) (fallback : Option String) (v : String) :
    (now - c.lastLoadedAt ≤ c.ttlMs → c.map.lookup key = some v →
      getSetting (some store) now c key fallback = .ok (some v, c) ∧
      getSetting none now c key fallback = .ok (some v, c)) ∧
    (now - c.lastLoadedAt > c.ttlMs →
      ensureSettingsFresh (some store) now c
        = { c with map := store, lastLoadedAt := now } ∧
      (store.lookup key = some v →
        getSetting (some store) now c key fallback
          = .ok (some v, { c with map := store, lastLoadedAt := now })) ∧
      ensureSettingsFresh none now c = c ∧
      (c.map.lookup key = some v →
        getSetting none now c key fallback = .ok (some v, c))) := by
  constructor
  · intro hfresh hhit
    have hens : ∀ st, ensureSettingsFresh st now c = c := by
      intro st
      unfold ensureSettingsFresh
      rw [if_neg (by omega)]
    exact ⟨by simp [getSetting, hens, hhit], by simp [getSetting, hens, hhit]⟩
  · intro hstale
    have hens1 : ensureSettingsFresh (some store) now c
        = { c with map := store, lastLoadedAt := now } := by
      unfold ensureSettingsFresh hydrateSettingsCache
      rw [if_pos (by omega)]
    have hens2 : ensureSettingsFresh none now c = c := by
      unfold ensureSettingsFresh
      rw [if_pos (by omega)]
    refine ⟨hens1, ?_, hens2, ?_⟩
    · intro hhit
      simp [getSetting, hens1, hhit]
    · intro hhit
      simp [getSetting, hens2, hhit]

/-- Witness for C8: with TTL 60000 ms and a cache loaded at time 0 holding
`k = old` while the store holds `k = v`: a read at time 100 serves the cached
`old`; a read at time 100000 reloads and serves `v`; at time 100000 with the
store unreachable the reload failure is swallowed and the stale `old` is still
served. -/
theorem C8_settings_cache_ttl_reload_and_stale_serving_witness :
    getSetting (some [("k", "v")]) 100 ⟨[("k", "old")], 0, 60000⟩ "k" none
      = .ok (some "old", ⟨[("k", "old")], 0, 60000⟩) ∧
    getSetting (some [("k", "v")]) 100000 ⟨[("k", "old")], 0, 60000⟩ "k" none
      = .ok (some "v", ⟨[("k", "v")], 100000, 60000⟩) ∧
    ensureSettingsFresh none 100000 ⟨[("k", "old")], 0, 60000⟩
      = ⟨[("k", "old")], 0, 60000⟩ ∧
    getSetting none 100000 ⟨[("k", "old")], 0, 60000⟩ "k" none
      = .ok (some "old", ⟨[("k", "old")], 0, 60000⟩) := by
  have h1 := C8_settings_cache_ttl_reload_and_stale_serving
    [("k", "v")] 100 ⟨[("k", "old")], 0, 60000⟩ "k" none "old"
  have h2 := C8_settings_cache_ttl_reload_and_stale_serving
    [("k", "v")] 100000 ⟨[("k", "old")], 0, 60000⟩ "k" none "v"
  have h3 := C8_settings_cache_ttl_reload_and_stale_serving
    [("k", "v")] 100000 ⟨[("k", "old")], 0, 60000⟩ "k" none "old"
  exact ⟨(h1.1 (by decide) (by decide)).1,
    (h2.2 (by decide)).2.1 (by decide),
    (h3.2 (by decide)).2.2.1,
    (h3.2 (by decide)).2.2.2 (by decide)⟩

end TownTvMax
